import Mathlib

/-!
Verification of the JsRpc correlation engine (`src/core/engine.go`) and the
websocket session handler (`src/unnamed/part_000`, package `core`).

The Go code is shallowly embedded: the nested `actionData` map
(`map[string]map[string]chan string`) becomes an association list of
association lists, a buffered channel becomes a `Chan` record (buffer plus
closed flag), the `sync.Map` registry becomes an association list keyed by
the concatenated string `group ++ "->" ++ clientId` exactly as the source
builds it, and each control-flow path of `GQueryFunc` (marshal failure,
write failure, missing slot, reply, timeout, recovered panic) is selected by
an explicit `GPath` argument.  Go `int` fields are embedded as `Int`.
-/

namespace JsRpc

/-- A buffered string channel (`chan string`), as used for result slots
(`make(chan string, 1)`) and for the caller-facing `resChan`. -/
structure Chan where
  buf : List String
  closed : Bool
deriving DecidableEq, Repr

/-- The freshly made capacity-1 slot `make(chan string, 1)`. -/
def emptyChan : Chan := { buf := [], closed := false }

/-- Association-list lookup: Go map indexing `m[k]`, `none` for a missing
key (the Go zero value). -/
def mapLookup {α : Type} (m : List (String × α)) (k : String) : Option α :=
  (m.find? (fun kv => kv.1 == k)).map (fun kv => kv.2)

/-- Association-list update: Go map assignment `m[k] = v` (overwrites an
existing entry, otherwise appends). -/
def mapInsert {α : Type} (m : List (String × α)) (k : String) (v : α) :
    List (String × α) :=
  if (m.find? (fun kv => kv.1 == k)).isSome then
    m.map (fun kv => if kv.1 == k then (k, v) else kv)
  else
    m ++ [(k, v)]

/-- Association-list removal: Go `delete(m, k)`. -/
def mapErase {α : Type} (m : List (String × α)) (k : String) :
    List (String × α) :=
  m.filter (fun kv => kv.1 != k)

/-- The `Clients` struct of the source.  `clientWs` is represented only by
whether the socket has been closed (`socketClosed`), which is what the read
loop and `kickClient` observe of it. -/
structure Clients where
  clientGroup : String
  clientId : String
  clientIp : String
  actionData : List (String × List (String × Chan))
  lastPingTime : Int
  failCount : Int
  isHealthy : Bool
  registeredActions : List String
  socketClosed : Bool
deriving DecidableEq, Repr

/-- `NewClient` of the source: fresh session state after upgrade. -/
def newClient (group uid ip : String) (now : Int) : Clients :=
  { clientGroup := group
    clientId := uid
    clientIp := ip
    actionData := []
    lastPingTime := now
    failCount := 0
    isHealthy := true
    registeredActions := []
    socketClosed := false }

/-- `readFromMap` of the source: `c.actionData[funcName][MessageId]`,
`none` when either level is missing (a `nil` channel in Go). -/
def readFromMap (c : Clients) (funcName msgId : String) : Option Chan :=
  (mapLookup c.actionData funcName).bind (fun inner => mapLookup inner msgId)

/-- The first block of `GQueryFunc`: `if c.actionData[funcName] == nil`
then make an empty inner map for that action. -/
def ensureAction (c : Clients) (funcName : String) : Clients :=
  match mapLookup c.actionData funcName with
  | none => { c with actionData := mapInsert c.actionData funcName [] }
  | some _ => c

/-- The slot insertion of `GQueryFunc`:
`c.actionData[funcName][MessageId] = make(chan string, 1)`. -/
def insertSlot (c : Clients) (funcName msgId : String) : Clients :=
  match mapLookup c.actionData funcName with
  | none => c
  | some inner =>
      { c with actionData :=
          mapInsert c.actionData funcName (mapInsert inner msgId emptyChan) }

/-- The session state right before `GQueryFunc` writes the request frame:
inner map ensured, fresh capacity-1 slot inserted at `(funcName, msgId)`. -/
def preSendClient (c : Clients) (funcName msgId : String) : Clients :=
  insertSlot (ensureAction c funcName) funcName msgId

/-- The deferred cleanup of `GQueryFunc`: under the lock, if the slot still
exists, delete it from `actionData` and close its channel (the closed
channel is dropped with the entry). -/
def cleanupSlot (c : Clients) (funcName msgId : String) : Clients :=
  match mapLookup c.actionData funcName with
  | none => c
  | some inner =>
      { c with actionData :=
          mapInsert c.actionData funcName (mapErase inner msgId) }

/-- Which control-flow path a `GQueryFunc` call takes after the slot is
inserted: `json.Marshal` fails; `WriteMessage` fails; the re-lookup of the
slot before the select finds it gone (concurrently released); the reply
lands in the slot before the context deadline; the deadline fires first; or
an internal panic is recovered by the outermost defer. -/
inductive GPath where
  | marshalFail
  | writeFail
  | slotMissing
  | reply (v : String)
  | timeout
  | panicked
deriving DecidableEq, Repr

/-- What a `GQueryFunc` call leaves behind: the mutated session, the values
sent on `resChan`, and whether `resChan` was closed. -/
structure InvokeResult where
  client : Clients
  resSent : List String
  resClosed : Bool
deriving DecidableEq, Repr

/-- `GQueryFunc` of `src/core/engine.go`, one call, big-step.  The common
prefix ensures the inner map and inserts the capacity-1 slot before any
send.  Per path, following the source exactly:
* `marshalFail`: send `"JSON序列化失败"`, return (deferred cleanup runs);
* `writeFail`: set `isHealthy = false`, send `"rpc发送数据失败"`, return;
* `slotMissing`: the slot was concurrently removed after the frame was
  written (`resultChan == nil` at line 100), send
  `"消息ID对应的管道不存在"`, return, `failCount` and `isHealthy` untouched;
* `reply v`: `failCount = 0`, `isHealthy = true`, send the delivered value;
* `timeout`: `failCount++`, and if the new count is `>= 3` set
  `isHealthy = false`, send `"获取结果超时 timeout"`;
* `panicked`: the deferred cleanup (registered after the recover defer, so
  run first) removes the slot and closes `resChan`; the recover defer then
  attempts `resChan <- "内部错误"` on the already closed channel, which
  panics and is swallowed by the nested recover — no value is ever sent. -/
def gQueryFunc (c0 : Clients) (funcName msgId : String) (path : GPath) :
    InvokeResult :=
  let c1 := preSendClient c0 funcName msgId
  match path with
  | GPath.marshalFail =>
      { client := cleanupSlot c1 funcName msgId
        resSent := ["JSON序列化失败"], resClosed := true }
  | GPath.writeFail =>
      { client := cleanupSlot { c1 with isHealthy := false } funcName msgId
        resSent := ["rpc发送数据失败"], resClosed := true }
  | GPath.slotMissing =>
      let c2 := cleanupSlot c1 funcName msgId
      { client := cleanupSlot c2 funcName msgId
        resSent := ["消息ID对应的管道不存在"], resClosed := true }
  | GPath.reply v =>
      { client := cleanupSlot { c1 with failCount := 0, isHealthy := true }
          funcName msgId
        resSent := [v], resClosed := true }
  | GPath.timeout =>
      let c2 := { c1 with failCount := c1.failCount + 1 }
      let c3 := if c2.failCount ≥ 3 then { c2 with isHealthy := false } else c2
      { client := cleanupSlot c3 funcName msgId
        resSent := ["获取结果超时 timeout"], resClosed := true }
  | GPath.panicked =>
      { client := cleanupSlot c1 funcName msgId
        resSent := [], resClosed := true }

/-! ## Registry (`hlSyncMap`) and load balancer -/

/-- The process-wide `hlSyncMap sync.Map`, keyed by the concatenated string
`group + "->" + clientId` exactly as the source builds it. -/
abbrev Registry : Type := List (String × Clients)

/-- `hlSyncMap.Load k`. -/
def syncMapLoad (reg : Registry) (k : String) : Option Clients :=
  mapLookup reg k

/-- `hlSyncMap.Store k v`. -/
def syncMapStore (reg : Registry) (k : String) (v : Clients) : Registry :=
  mapInsert reg k v

/-- `hlSyncMap.Delete k`. -/
def syncMapDelete (reg : Registry) (k : String) : Registry :=
  mapErase reg k

/-- The `ws` handler stores every session under the key
`group + "->" + clientId` (line 131); a registry is well formed when every
entry's key has that shape for the stored session's own fields. -/
def RegistryWF (reg : Registry) : Prop :=
  ∀ kv ∈ reg, kv.1 = kv.2.clientGroup ++ "->" ++ kv.2.clientId

/-- The registration `hlSyncMap.Store(group+"->"+clientId, NewClient(...))`
performed by the `ws` handler. -/
def wsRegister (reg : Registry) (group clientId ip : String) (now : Int) :
    Registry :=
  syncMapStore reg (group ++ "->" ++ clientId) (newClient group clientId ip now)

/-- The health test of `getHealthyClient`:
`tmpClients.isHealthy && tmpClients.failCount < 3`. -/
def isHealthyCandidate (c : Clients) : Bool :=
  c.isHealthy && decide (c.failCount < 3)

/-- The sessions collected by the `hlSyncMap.Range` loop of
`getHealthyClient`: group matches and the excluded client (when the
exclusion id is non-empty) is skipped.  Range order is the list order. -/
def groupMembers (reg : Registry) (group excludeClientId : String) :
    List Clients :=
  (reg.map (fun kv => kv.2)).filter
    (fun c => c.clientGroup == group &&
      !(excludeClientId != "" && c.clientId == excludeClientId))

/-- `healthyClients` of `getHealthyClient`. -/
def healthyMembers (reg : Registry) (group excludeClientId : String) :
    List Clients :=
  (groupMembers reg group excludeClientId).filter isHealthyCandidate

/-- `unhealthyClients` of `getHealthyClient`. -/
def unhealthyMembers (reg : Registry) (group excludeClientId : String) :
    List Clients :=
  (groupMembers reg group excludeClientId).filter
    (fun c => !(isHealthyCandidate c))

/-- `candidates` of `getHealthyClient`: the healthy list, falling back to
the unhealthy list when no healthy session exists. -/
def candidateMembers (reg : Registry) (group excludeClientId : String) :
    List Clients :=
  if (healthyMembers reg group excludeClientId).length == 0 then
    unhealthyMembers reg group excludeClientId
  else
    healthyMembers reg group excludeClientId

/-- `getHealthyClient` of the source; `rand` stands for the value the
freshly seeded `r.Intn(len(candidates))` draw produces on this call (taken
modulo the candidate count, which `Intn` guarantees). -/
def getHealthyClient (reg : Registry) (group excludeClientId : String)
    (rand : Nat) : Option Clients :=
  let candidates := candidateMembers reg group excludeClientId
  if candidates.length == 0 then none
  else candidates.get? (rand % candidates.length)

/-- `getRandomClient` of the source: explicit ids go through
`hlSyncMap.Load(group + "->" + clientId)` with no fallback; an empty id
falls through to `getHealthyClient(group, "")`. -/
def getRandomClient (reg : Registry) (group clientId : String) (rand : Nat) :
    Option Clients :=
  if clientId != "" then syncMapLoad reg (group ++ "->" ++ clientId)
  else getHealthyClient reg group "" rand

/-! ## Read loop frame processing (`ws`, `writeToMap`) -/

/-- One decoded inbound frame (`MessageResponse`). -/
structure Frame where
  action : String
  message_id : String
  response_data : String
deriving DecidableEq, Repr

/-- What a Go send `ch <- v` on a capacity-1 channel does: panics when the
channel is closed, delivers into the buffer when there is room, blocks
forever otherwise (and a send on a `nil` channel also blocks forever). -/
inductive SendOutcome where
  | delivered (ch : Chan)
  | chanPanics
  | blocks
deriving DecidableEq, Repr

/-- The channel send semantics used by `writeToMap`. -/
def chanSend (ch : Chan) (v : String) : SendOutcome :=
  if ch.closed then SendOutcome.chanPanics
  else if ch.buf.length < 1 then SendOutcome.delivered { ch with buf := ch.buf ++ [v] }
  else SendOutcome.blocks

/-- Replace the channel stored at `(funcName, msgId)`. -/
def setSlot (c : Clients) (funcName msgId : String) (ch : Chan) : Clients :=
  match mapLookup c.actionData funcName with
  | none => c
  | some inner =>
      { c with actionData :=
          mapInsert c.actionData funcName (mapInsert inner msgId ch) }

/-- `writeToMap` of the source: `c.actionData[funcName][MessageId] <- msg`
under the lock, with a deferred recover.  A missing entry yields the zero
value `nil` channel, on which the send blocks forever (`none`); a send on a
closed channel panics and is swallowed by the recover, leaving the state
unchanged; a full buffer with no receiver also blocks (`none`). -/
def writeToMap (c : Clients) (funcName msgId msg : String) : Option Clients :=
  match readFromMap c funcName msgId with
  | none => none
  | some ch =>
      match chanSend ch msg with
      | SendOutcome.delivered ch2 => some (setSlot c funcName msgId ch2)
      | SendOutcome.chanPanics => some c
      | SendOutcome.blocks => none

/-- The body of the `ws` read loop for one decoded frame (lines 184–206),
parameterized by the external `json.Unmarshal` of `response_data` into a
`[]string` (`decodeActions`).  A `_registerActions` frame with empty
`message_id` replaces `registeredActions` when its payload decodes (and is
dropped otherwise) and never touches `actionData`; any other frame is
looked up in the pending table: absent means log-and-drop, present means
`writeToMap`.  `none` means the read loop blocked. -/
def processFrame (decodeActions : String → Option (List String))
    (c : Clients) (fr : Frame) : Option Clients :=
  if fr.action == "_registerActions" && fr.message_id == "" then
    match decodeActions fr.response_data with
    | some acts => some { c with registeredActions := acts }
    | none => some c
  else
    match readFromMap c fr.action fr.message_id with
    | none => some c
    | some _ => writeToMap c fr.action fr.message_id fr.response_data

/-! ## Heartbeat (`SetPongHandler`, heartbeat goroutine) -/

/-- The pong handler installed by `ws` (lines 141–146): only
`lastPingTime` is updated; the `isHealthy`/`failCount` resets are
commented out in the source. -/
def pongHandler (c : Clients) (now : Int) : Clients :=
  { c with lastPingTime := now }

/-- One tick of the heartbeat goroutine (lines 158–165): `WriteControl` of
a ping; on error set `isHealthy = false`, otherwise change nothing.
`writeErr` is whether the probe send failed. -/
def heartbeatTick (c : Clients) (writeErr : Bool) : Clients :=
  if writeErr then { c with isHealthy := false } else c

/-! ## Kick and teardown (`kickClient`, the `ws` defer) -/

/-- `kickClient` of the source: returns the updated registry, the HTTP
status, and the response message.  `client.clientWs.Close()` is modelled by
setting `socketClosed` on the stored session (the registry holds the same
session object the read loop uses). -/
def kickClient (reg : Registry) (group clientId : String) :
    Registry × Nat × String :=
  if group == "" || clientId == "" then
    (reg, 400, "group 和 clientId 参数必填")
  else
    match syncMapLoad reg (group ++ "->" ++ clientId) with
    | none => (reg, 404, "客户端不存在")
    | some cl =>
        (syncMapStore reg (group ++ "->" ++ clientId)
           { cl with socketClosed := true }, 200, "客户端已踢除")

/-- `wsClient.ReadMessage()` as the read loop sees it: a closed socket
yields a read error (`none`), which breaks the loop; otherwise the next
inbound frame (if any) is returned. -/
def readMessageResult (c : Clients) (input : Option Frame) : Option Frame :=
  if c.socketClosed then none else input

/-- The `ws` handler's deferred teardown (lines 122–128): close the socket
and `hlSyncMap.Delete(group + "->" + clientId)`. -/
def wsTeardown (reg : Registry) (key : String) : Registry :=
  syncMapDelete reg key

/-! ## Handshake ordering (`ws` lines 103–138) -/

/-- The externally visible events of one `ws` handler execution, in
program order. -/
inductive WsEvent where
  | storeEntry (key : String)
  | sendAckOk
  | sendAckFail
  | closeSocket
  | deleteEntry (key : String)
deriving DecidableEq, Repr

/-- The event trace of one `ws` handler run (upgrade assumed successful):
reject an empty group before doing anything; otherwise store the registry
entry, then attempt to send the handshake acknowledgement
`{"registerId": id}` (`ackOk` tells whether that write succeeded — on
failure the handler returns at once); whatever the read loop then does, the
handler ends by running its defer, which closes the socket and deletes the
registry entry. -/
def wsHandlerTrace (group clientId : String) (ackOk : Bool) : List WsEvent :=
  if group == "" then []
  else
    [WsEvent.storeEntry (group ++ "->" ++ clientId),
     if ackOk then WsEvent.sendAckOk else WsEvent.sendAckFail,
     WsEvent.closeSocket,
     WsEvent.deleteEntry (group ++ "->" ++ clientId)]

/-- Replay of a `ws` trace against a registry, with `cl` the stored
session. -/
def applyWsEvent (cl : Clients) (reg : Registry) : WsEvent → Registry
  | WsEvent.storeEntry key => syncMapStore reg key cl
  | WsEvent.deleteEntry key => syncMapDelete reg key
  | _ => reg

/-- Replay a whole trace. -/
def applyWsTrace (cl : Clients) (reg : Registry) (tr : List WsEvent) :
    Registry :=
  tr.foldl (applyWsEvent cl) reg

/-! ## Correlation-id generation (`GQueryFunc` lines 35–45) -/

/-- The local progress of one `GQueryFunc` call through the id-generation
loop: not yet past the check; past the `readFromMap(...) == nil` check with
uuid `u` observed absent (the RLock has been released, the insert not yet
performed); or past the locked insert with `u` as its correlation id. -/
inductive TStatus where
  | idle
  | ready (u : String)
  | outstanding (u : String)
deriving DecidableEq, Repr

/-- The shared state for one fixed `(session, action)` pair: the set of
correlation ids currently holding a slot in `actionData[action]`, plus the
local status of each concurrent `GQueryFunc` call. -/
structure IdGenState where
  pending : List String
  threads : List TStatus
deriving DecidableEq, Repr

/-- Go map-write semantics on the pending id set: an existing key is
overwritten (the set is unchanged), a new key is added. -/
def pendingInsert (l : List String) (u : String) : List String :=
  if u ∈ l then l else l ++ [u]

/-- One atomic lock-protected region of the id-generation and release code,
interleaved across concurrent `GQueryFunc` calls on the same
`(session, action)`:
* `checkAbsent`: the `readFromMap` RLock region returns `nil` for the drawn
  uuid, so the call proceeds toward the insert (line 38);
* `checkPresent`: `readFromMap` finds the uuid taken; the call loops and
  will draw a fresh uuid (line 44);
* `insertSlot`: the `rwMu.Lock` region performs
  `c.actionData[funcName][MessageId] = make(chan string, 1)` without
  re-checking, and the call breaks out of the loop (lines 39–42);
* `release`: the deferred cleanup of a finished call deletes its id. -/
inductive IdStep : IdGenState → IdGenState → Prop where
  | checkAbsent (s : IdGenState) (t : Nat) (u : String)
      (hth : s.threads.get? t = some TStatus.idle)
      (habs : u ∉ s.pending) :
      IdStep s { s with threads := s.threads.set t (TStatus.ready u) }
  | checkPresent (s : IdGenState) (t : Nat) (u : String)
      (hth : s.threads.get? t = some TStatus.idle)
      (hpres : u ∈ s.pending) :
      IdStep s s
  | insertSlot (s : IdGenState) (t : Nat) (u : String)
      (hth : s.threads.get? t = some (TStatus.ready u)) :
      IdStep s { s with
        pending := pendingInsert s.pending u
        threads := s.threads.set t (TStatus.outstanding u) }
  | release (s : IdGenState) (t : Nat) (u : String)
      (hth : s.threads.get? t = some (TStatus.outstanding u)) :
      IdStep s { s with
        pending := s.pending.filter (fun x => x != u)
        threads := s.threads.set t TStatus.idle }

/-! ## Association-list lemmas -/

theorem find?_map_replace {α : Type} (t : List (String × α)) (k : String)
    (v : α) (h : (t.find? (fun kv => kv.1 == k)).isSome = true) :
    (t.map (fun kv => if kv.1 == k then (k, v) else kv)).find?
      (fun kv => kv.1 == k) = some (k, v) := by
  induction t with
  | nil => simp [List.find?] at h
  | cons a t ih =>
      by_cases ha : (a.1 == k) = true
      · rw [List.map_cons, if_pos ha]
        exact List.find?_cons_of_pos _ (by simp)
      · have ha2 : (a.1 == k) = false := by simpa using ha
        rw [List.map_cons, if_neg ha, List.find?_cons_of_neg _ (by simp [ha2])]
        apply ih
        rwa [List.find?_cons_of_neg _ (by simp [ha2])] at h

theorem find?_append_fresh {α : Type} (t : List (String × α)) (k : String)
    (v : α) (h : t.find? (fun kv => kv.1 == k) = none) :
    (t ++ [(k, v)]).find? (fun kv => kv.1 == k) = some (k, v) := by
  induction t with
  | nil => exact List.find?_cons_of_pos _ (by simp)
  | cons a t ih =>
      by_cases ha : (a.1 == k) = true
      · rw [List.find?_cons_of_pos _ (by simpa using ha)] at h
        simp at h
      · have ha2 : (a.1 == k) = false := by simpa using ha
        rw [List.find?_cons_of_neg _ (by simp [ha2])] at h
        rw [List.cons_append, List.find?_cons_of_neg _ (by simp [ha2])]
        exact ih h

theorem mapLookup_insert_self {α : Type} (m : List (String × α)) (k : String)
    (v : α) :
    mapLookup (mapInsert m k v) k = some v := by
  unfold mapLookup mapInsert
  by_cases h : (m.find? (fun kv => kv.1 == k)).isSome = true
  · rw [if_pos h, find?_map_replace m k v h]
    rfl
  · have h2 : m.find? (fun kv => kv.1 == k) = none := by
      cases hm : m.find? (fun kv => kv.1 == k) with
      | none => rfl
      | some x => rw [hm] at h; simp at h
    rw [if_neg h, find?_append_fresh m k v h2]
    rfl

theorem mapLookup_erase_self {α : Type} (m : List (String × α)) (k : String) :
    mapLookup (mapErase m k) k = none := by
  unfold mapLookup mapErase
  have hnone : (m.filter (fun kv => kv.1 != k)).find? (fun kv => kv.1 == k)
      = none := by
    rw [List.find?_eq_none]
    intro x hx
    have hx2 := (List.mem_filter.mp hx).2
    simp only [bne_iff_ne, ne_eq] at hx2
    simp [hx2]
  rw [hnone]
  rfl

/-! ## Field-preservation lemmas: the pending-table operations touch only
`actionData` -/

theorem ensureAction_fields (c : Clients) (f : String) :
    (ensureAction c f).failCount = c.failCount ∧
    (ensureAction c f).isHealthy = c.isHealthy ∧
    (ensureAction c f).clientGroup = c.clientGroup := by
  unfold ensureAction
  cases mapLookup c.actionData f <;> exact ⟨rfl, rfl, rfl⟩

theorem insertSlot_fields (c : Clients) (f m : String) :
    (insertSlot c f m).failCount = c.failCount ∧
    (insertSlot c f m).isHealthy = c.isHealthy ∧
    (insertSlot c f m).clientGroup = c.clientGroup := by
  unfold insertSlot
  cases mapLookup c.actionData f <;> exact ⟨rfl, rfl, rfl⟩

theorem preSendClient_fields (c : Clients) (f m : String) :
    (preSendClient c f m).failCount = c.failCount ∧
    (preSendClient c f m).isHealthy = c.isHealthy := by
  unfold preSendClient
  refine ⟨?_, ?_⟩
  · rw [(insertSlot_fields (ensureAction c f) f m).1, (ensureAction_fields c f).1]
  · rw [(insertSlot_fields (ensureAction c f) f m).2.1,
      (ensureAction_fields c f).2.1]

theorem cleanupSlot_fields (c : Clients) (f m : String) :
    (cleanupSlot c f m).failCount = c.failCount ∧
    (cleanupSlot c f m).isHealthy = c.isHealthy := by
  unfold cleanupSlot
  cases mapLookup c.actionData f <;> exact ⟨rfl, rfl⟩

/-! ## Slot lifecycle lemmas -/

theorem ensureAction_lookup (c : Clients) (f : String) :
    ∃ inner, mapLookup (ensureAction c f).actionData f = some inner := by
  unfold ensureAction
  cases h : mapLookup c.actionData f with
  | none => exact ⟨[], by simp [mapLookup_insert_self]⟩
  | some inner => exact ⟨inner, by simpa using h⟩

theorem readFromMap_preSendClient (c : Clients) (f m : String) :
    readFromMap (preSendClient c f m) f m = some emptyChan := by
  obtain ⟨inner, hinner⟩ := ensureAction_lookup c f
  unfold preSendClient insertSlot
  rw [hinner]
  unfold readFromMap
  simp [mapLookup_insert_self]

theorem readFromMap_cleanupSlot (c : Clients) (f m : String) :
    readFromMap (cleanupSlot c f m) f m = none := by
  unfold cleanupSlot
  cases h : mapLookup c.actionData f with
  | none => unfold readFromMap; simp [h]
  | some inner =>
      unfold readFromMap
      simp [mapLookup_insert_self, mapLookup_erase_self]

/-! ## Path lemmas for `gQueryFunc` -/

theorem gq_reply_failCount (c : Clients) (f m v : String) :
    (gQueryFunc c f m (GPath.reply v)).client.failCount = 0 := by
  simp only [gQueryFunc]
  rw [(cleanupSlot_fields _ f m).1]

theorem gq_reply_isHealthy (c : Clients) (f m v : String) :
    (gQueryFunc c f m (GPath.reply v)).client.isHealthy = true := by
  simp only [gQueryFunc]
  rw [(cleanupSlot_fields _ f m).2]

theorem gq_timeout_failCount (c : Clients) (f m : String) :
    (gQueryFunc c f m GPath.timeout).client.failCount = c.failCount + 1 := by
  simp only [gQueryFunc]
  rw [(cleanupSlot_fields _ f m).1]
  have hp := (preSendClient_fields c f m).1
  split <;> simp [hp]

theorem gq_timeout_isHealthy (c : Clients) (f m : String) :
    (gQueryFunc c f m GPath.timeout).client.isHealthy =
      (if c.failCount + 1 ≥ 3 then false else c.isHealthy) := by
  simp only [gQueryFunc]
  rw [(cleanupSlot_fields _ f m).2]
  have hp1 := (preSendClient_fields c f m).1
  have hp2 := (preSendClient_fields c f m).2
  split <;> rename_i h <;> simp [hp1] at h
  · simp [h]
  · simp [hp2, h]

/-- A demonstration session: the fresh state of an agent registered in
group `g1` with id `u1`. -/
def demoClient : Clients := newClient "g1" "u1" "ip1" 0

/-- C1: on a `GQueryFunc` call whose frame was written, a reply delivered
before the deadline resets `failCount` to 0, sets `isHealthy`, and returns
the delivered value; a deadline firing first increments `failCount` by 1,
sets `isHealthy` to false exactly when the incremented count reaches 3 (so
the third consecutive timeout from a clean state flips `isHealthy` to
false, the first two leave it true), and returns the literal sentinel
`"获取结果超时 timeout"`. -/
theorem GQueryFunc_health_transitions (c : Clients) (f m v : String) :
    ((gQueryFunc c f m (GPath.reply v)).client.failCount = 0 ∧
     (gQueryFunc c f m (GPath.reply v)).client.isHealthy = true ∧
     (gQueryFunc c f m (GPath.reply v)).resSent = [v]) ∧
    ((gQueryFunc c f m GPath.timeout).client.failCount = c.failCount + 1 ∧
     (gQueryFunc c f m GPath.timeout).client.isHealthy =
       (if c.failCount + 1 ≥ 3 then false else c.isHealthy) ∧
     (gQueryFunc c f m GPath.timeout).resSent = ["获取结果超时 timeout"]) ∧
    (c.failCount = 0 → c.isHealthy = true →
      (gQueryFunc c f m GPath.timeout).client.isHealthy = true ∧
      (gQueryFunc (gQueryFunc c f m GPath.timeout).client f m
          GPath.timeout).client.isHealthy = true ∧
      (gQueryFunc (gQueryFunc (gQueryFunc c f m GPath.timeout).client f m
          GPath.timeout).client f m GPath.timeout).client.isHealthy = false ∧
      (gQueryFunc (gQueryFunc (gQueryFunc c f m GPath.timeout).client f m
          GPath.timeout).client f m GPath.timeout).client.failCount = 3) := by
  refine ⟨⟨gq_reply_failCount c f m v, gq_reply_isHealthy c f m v, rfl⟩,
    ⟨gq_timeout_failCount c f m, gq_timeout_isHealthy c f m, rfl⟩, ?_⟩
  intro h0 h1
  have t1f : (gQueryFunc c f m GPath.timeout).client.failCount = 1 := by
    rw [gq_timeout_failCount, h0]
    norm_num
  have t1h : (gQueryFunc c f m GPath.timeout).client.isHealthy = true := by
    rw [gq_timeout_isHealthy, h0, h1]
    norm_num
  have t2f : (gQueryFunc (gQueryFunc c f m GPath.timeout).client f m
      GPath.timeout).client.failCount = 2 := by
    rw [gq_timeout_failCount, t1f]
    norm_num
  have t2h : (gQueryFunc (gQueryFunc c f m GPath.timeout).client f m
      GPath.timeout).client.isHealthy = true := by
    rw [gq_timeout_isHealthy, t1f, t1h]
    norm_num
  have t3f : (gQueryFunc (gQueryFunc (gQueryFunc c f m GPath.timeout).client
      f m GPath.timeout).client f m GPath.timeout).client.failCount = 3 := by
    rw [gq_timeout_failCount, t2f]
    norm_num
  have t3h : (gQueryFunc (gQueryFunc (gQueryFunc c f m GPath.timeout).client
      f m GPath.timeout).client f m GPath.timeout).client.isHealthy
      = false := by
    rw [gq_timeout_isHealthy, t2f]
    norm_num
  exact ⟨t1h, t2h, t3h, t3f⟩

/-- Witness for C1: a concrete fresh session really takes the proved
transitions (third consecutive timeout turns `isHealthy` off, a reply
resets the count). -/
theorem GQueryFunc_health_transitions_witness :
    (gQueryFunc (gQueryFunc (gQueryFunc demoClient "a" "m"
        GPath.timeout).client "a" "m" GPath.timeout).client "a" "m"
        GPath.timeout).client.isHealthy = false ∧
    (gQueryFunc demoClient "a" "m" (GPath.reply "ok")).client.failCount
      = 0 :=
  ⟨((GQueryFunc_health_transitions demoClient "a" "m" "ok").2.2 rfl
      rfl).2.2.1,
   (GQueryFunc_health_transitions demoClient "a" "m" "ok").1.1⟩

/-- C10: the path of `GQueryFunc` where the slot is gone when re-read
after the write (`resultChan == nil`): the literal result
`"消息ID对应的管道不存在"` is delivered at once and neither `failCount` nor
`isHealthy` changes. -/
theorem GQueryFunc_slotMissing_result (c : Clients) (f m : String) :
    (gQueryFunc c f m GPath.slotMissing).resSent = ["消息ID对应的管道不存在"] ∧
    (gQueryFunc c f m GPath.slotMissing).client.failCount = c.failCount ∧
    (gQueryFunc c f m GPath.slotMissing).client.isHealthy = c.isHealthy ∧
    (gQueryFunc c f m GPath.slotMissing).resClosed = true := by
  refine ⟨rfl, ?_, ?_, rfl⟩
  · simp only [gQueryFunc]
    rw [(cleanupSlot_fields _ f m).1, (cleanupSlot_fields _ f m).1,
      (preSendClient_fields c f m).1]
  · simp only [gQueryFunc]
    rw [(cleanupSlot_fields _ f m).2, (cleanupSlot_fields _ f m).2,
      (preSendClient_fields c f m).2]

/-- C4 (amended): every `GQueryFunc` call inserts an empty capacity-1 slot
at `(action, id)` before writing the frame, and on every exit path the slot
is removed and `resChan` is closed; on the marshal-failure, write-failure,
missing-slot, reply and timeout paths exactly one result value is sent,
while on the recovered-panic path the cleanup defer has already closed
`resChan` when the recovery send runs, so no value is sent and the caller
is unblocked by the closure alone. -/
theorem GQueryFunc_slot_lifecycle (c : Clients) (f m : String)
    (path : GPath) :
    readFromMap (preSendClient c f m) f m = some emptyChan ∧
    readFromMap (gQueryFunc c f m path).client f m = none ∧
    (gQueryFunc c f m path).resClosed = true ∧
    (path ≠ GPath.panicked → (gQueryFunc c f m path).resSent.length = 1) ∧
    (path = GPath.panicked → (gQueryFunc c f m path).resSent = []) := by
  refine ⟨readFromMap_preSendClient c f m, ?_, ?_, ?_, ?_⟩
  · cases path <;> exact readFromMap_cleanupSlot _ f m
  · cases path <;> rfl
  · intro h
    cases path <;> first | rfl | exact absurd rfl h
  · intro h
    cases path <;> first | rfl | exact absurd h (by simp)

/-- Witness for C4: the timeout path on a concrete session removes the
slot and delivers exactly one value. -/
theorem GQueryFunc_slot_lifecycle_witness :
    readFromMap (gQueryFunc demoClient "a" "m" GPath.timeout).client "a" "m"
      = none ∧
    (gQueryFunc demoClient "a" "m" GPath.timeout).resSent.length = 1 :=
  ⟨(GQueryFunc_slot_lifecycle demoClient "a" "m" GPath.timeout).2.1,
   (GQueryFunc_slot_lifecycle demoClient "a" "m" GPath.timeout).2.2.2.1
     (by simp)⟩

/-- C4 counterexample: on the recovered-panic exit path the claim's
"result delivered to the caller exactly once" fails — the deferred cleanup
closes `resChan` before the recovery send `resChan <- "内部错误"` runs, that
send panics on the closed channel and is swallowed, so zero values are
sent (the caller is unblocked only by the close and reads the zero value).
The slot is still removed and the channel closed. -/
theorem GQueryFunc_panicked_cex :
    (gQueryFunc demoClient "act" "mid" GPath.panicked).resSent = [] ∧
    (gQueryFunc demoClient "act" "mid" GPath.panicked).resSent.length ≠ 1 ∧
    (gQueryFunc demoClient "act" "mid" GPath.panicked).resClosed = true ∧
    readFromMap (gQueryFunc demoClient "act" "mid" GPath.panicked).client
      "act" "mid" = none :=
  ⟨rfl, by decide, rfl, readFromMap_cleanupSlot _ "act" "mid"⟩

/-- C8: a heartbeat probe send failure sets `isHealthy` to false and
leaves `failCount` alone; a pong only updates `lastPingTime`, touching
neither `failCount` nor `isHealthy`; only a successful `GQueryFunc`
round trip resets the streak (`failCount = 0`, `isHealthy = true`). -/
theorem heartbeat_scoring (c : Clients) (now : Int) (f m v : String) :
    (pongHandler c now).failCount = c.failCount ∧
    (pongHandler c now).isHealthy = c.isHealthy ∧
    (pongHandler c now).lastPingTime = now ∧
    (pongHandler c now).actionData = c.actionData ∧
    (pongHandler c now).registeredActions = c.registeredActions ∧
    (heartbeatTick c true).isHealthy = false ∧
    (heartbeatTick c true).failCount = c.failCount ∧
    heartbeatTick c false = c ∧
    (gQueryFunc c f m (GPath.reply v)).client.failCount = 0 ∧
    (gQueryFunc c f m (GPath.reply v)).client.isHealthy = true :=
  ⟨rfl, rfl, rfl, rfl, rfl, rfl, rfl, rfl,
   gq_reply_failCount c f m v, gq_reply_isHealthy c f m v⟩

/-! ## Selection lemmas (`getHealthyClient`, `getRandomClient`) -/

theorem groupMembers_group {reg : Registry} {group ex : String} {c : Clients}
    (h : c ∈ groupMembers reg group ex) : c.clientGroup = group := by
  have h2 := (List.mem_filter.mp h).2
  simp only [Bool.and_eq_true, beq_iff_eq] at h2
  exact h2.1

theorem healthyMembers_sub {reg : Registry} {group ex : String} {c : Clients}
    (h : c ∈ healthyMembers reg group ex) : c ∈ groupMembers reg group ex :=
  (List.mem_filter.mp h).1

theorem unhealthyMembers_sub {reg : Registry} {group ex : String}
    {c : Clients} (h : c ∈ unhealthyMembers reg group ex) :
    c ∈ groupMembers reg group ex :=
  (List.mem_filter.mp h).1

theorem candidateMembers_nil_iff (reg : Registry) (group ex : String) :
    candidateMembers reg group ex = [] ↔ groupMembers reg group ex = [] := by
  unfold candidateMembers
  constructor
  · intro h
    by_cases hl : ((healthyMembers reg group ex).length == 0) = true
    · rw [if_pos hl] at h
      simp only [beq_iff_eq, List.length_eq_zero] at hl
      cases hgm : groupMembers reg group ex with
      | nil => rfl
      | cons a t =>
          exfalso
          have ha : a ∈ groupMembers reg group ex := by
            rw [hgm]; exact List.mem_cons_self a t
          by_cases hh : isHealthyCandidate a = true
          · have hmem : a ∈ healthyMembers reg group ex :=
              List.mem_filter.mpr ⟨ha, hh⟩
            rw [hl] at hmem
            simp at hmem
          · have hh2 : (!(isHealthyCandidate a)) = true := by
              simp [Bool.not_eq_true] at hh ⊢
              exact hh
            have hmem : a ∈ unhealthyMembers reg group ex :=
              List.mem_filter.mpr ⟨ha, hh2⟩
            rw [h] at hmem
            simp at hmem
    · rw [if_neg hl] at h
      exfalso
      apply hl
      simp [h]
  · intro h
    unfold healthyMembers unhealthyMembers
    rw [h]
    simp

theorem getHealthyClient_none_iff (reg : Registry) (group ex : String)
    (rand : Nat) :
    getHealthyClient reg group ex rand = none ↔
      candidateMembers reg group ex = [] := by
  unfold getHealthyClient
  by_cases h : ((candidateMembers reg group ex).length == 0) = true
  · rw [if_pos h]
    simp only [beq_iff_eq, List.length_eq_zero] at h
    simp [h]
  · rw [if_neg h]
    simp only [beq_iff_eq] at h
    constructor
    · intro hn
      exfalso
      have hlt : rand % (candidateMembers reg group ex).length <
          (candidateMembers reg group ex).length :=
        Nat.mod_lt _ (Nat.pos_of_ne_zero h)
      rw [List.get?_eq_get hlt] at hn
      simp at hn
    · intro hc
      exact absurd (by rw [hc]; rfl) h

theorem getHealthyClient_mem {reg : Registry} {group ex : String}
    {rand : Nat} {c : Clients}
    (h : getHealthyClient reg group ex rand = some c) :
    c ∈ candidateMembers reg group ex := by
  unfold getHealthyClient at h
  by_cases hl : ((candidateMembers reg group ex).length == 0) = true
  · rw [if_pos hl] at h
    simp at h
  · rw [if_neg hl] at h
    exact List.get?_mem h

theorem getRandomClient_empty_id (reg : Registry) (group : String)
    (rand : Nat) :
    getRandomClient reg group "" rand = getHealthyClient reg group "" rand := by
  unfold getRandomClient
  simp

/-- C2 (amended): with a non-empty explicit id, `getRandomClient` is
exactly the registry lookup of the concatenated key
`group + "->" + clientId`, with no fallback; with an empty id, the group's
sessions are partitioned by `isHealthy && failCount < 3`, the draw comes
from the healthy set when it is non-empty and from the unhealthy set
otherwise, it fails exactly when the group has no session at all, the
returned session is always of the requested group, and every candidate is
reachable by some per-call draw.  (On the explicit-id path the key
concatenation can cross group boundaries when names contain `"->"`; see
the counterexample.) -/
theorem getRandomClient_selection (reg : Registry) (group clientId : String)
    (rand : Nat) :
    (clientId ≠ "" →
      getRandomClient reg group clientId rand =
        syncMapLoad reg (group ++ "->" ++ clientId)) ∧
    (getRandomClient reg group "" rand = none ↔
      groupMembers reg group "" = []) ∧
    (∀ c : Clients, getRandomClient reg group "" rand = some c →
      c.clientGroup = group ∧
      (healthyMembers reg group "" ≠ [] → c ∈ healthyMembers reg group "") ∧
      (healthyMembers reg group "" = [] → c ∈ unhealthyMembers reg group "")) ∧
    (∀ i : Nat, i < (candidateMembers reg group "").length →
      getRandomClient reg group "" i = (candidateMembers reg group "").get? i) := by
  refine ⟨?_, ?_, ?_, ?_⟩
  · intro h
    unfold getRandomClient
    rw [if_pos (bne_iff_ne.mpr h)]
  · rw [getRandomClient_empty_id, getHealthyClient_none_iff]
    exact candidateMembers_nil_iff reg group ""
  · intro c hc
    rw [getRandomClient_empty_id] at hc
    have hmem := getHealthyClient_mem hc
    unfold candidateMembers at hmem
    by_cases hl : ((healthyMembers reg group "").length == 0) = true
    · rw [if_pos hl] at hmem
      simp only [beq_iff_eq, List.length_eq_zero] at hl
      exact ⟨groupMembers_group (unhealthyMembers_sub hmem),
        fun hne => absurd hl hne, fun _ => hmem⟩
    · rw [if_neg hl] at hmem
      simp only [beq_iff_eq, List.length_eq_zero] at hl
      exact ⟨groupMembers_group (healthyMembers_sub hmem),
        fun _ => hmem, fun he => absurd he hl⟩
  · intro i hi
    rw [getRandomClient_empty_id]
    unfold getHealthyClient
    have hne : ¬(((candidateMembers reg group "").length == 0) = true) := by
      simp only [beq_iff_eq]
      omega
    rw [if_neg hne, Nat.mod_eq_of_lt hi]

/-- The session the `ws` handler registers for group `"a->b"`, id `"c"`:
its registry key is the concatenation `"a->b->c"`. -/
def arrowClient : Clients := newClient "a->b" "c" "ip9" 0

/-- A registry holding exactly that one registration. -/
def arrowReg : Registry := wsRegister [] "a->b" "c" "ip9" 0

/-- C2 counterexample: the claim's "the returned session is never from a
different group" fails on the explicit-id path.  In a well-formed registry
holding only the session of group `"a->b"` with id `"c"` (stored by the
`ws` handler under the key `"a->b->c"`), the explicit lookup for group
`"a"` and id `"b->c"` concatenates to the same key and returns that
session, whose group `"a->b"` is not the requested `"a"`. -/
theorem getRandomClient_group_mismatch_cex :
    (∀ kv ∈ arrowReg, kv.1 = kv.2.clientGroup ++ "->" ++ kv.2.clientId) ∧
    getRandomClient arrowReg "a" "b->c" 0 = some arrowClient ∧
    arrowClient.clientGroup ≠ "a" :=
  ⟨by decide, by decide, by decide⟩

/-- An unhealthy session of group `g1` (failed streak of 5). -/
def demoSick : Clients :=
  { newClient "g1" "u2" "ip2" 0 with isHealthy := false, failCount := 5 }

/-- A session of another group. -/
def demoOther : Clients := newClient "g2" "u3" "ip3" 0

/-- A registry with a healthy and an unhealthy `g1` session plus a `g2`
session, keyed as the `ws` handler keys them. -/
def demoReg : Registry :=
  [("g1->u1", demoClient), ("g1->u2", demoSick), ("g2->u3", demoOther)]

/-- Witness for C2 (amended): on the concrete registry the explicit path
is the key lookup, and the random path returns the healthy `g1` session,
which the theorem then places in the healthy set of group `g1`. -/
theorem getRandomClient_selection_witness :
    getRandomClient demoReg "g1" "u2" 0 = syncMapLoad demoReg "g1->u2" ∧
    getRandomClient demoReg "g1" "" 0 = some demoClient ∧
    demoClient.clientGroup = "g1" ∧
    demoClient ∈ healthyMembers demoReg "g1" "" := by
  have hsome : getRandomClient demoReg "g1" "" 0 = some demoClient := by decide
  have h3 := (getRandomClient_selection demoReg "g1" "" 0).2.2.1 demoClient
    hsome
  exact ⟨(getRandomClient_selection demoReg "g1" "u2" 0).1 (by decide),
    hsome, h3.1, h3.2.1 (by decide)⟩

/-! ## Read-loop frame effects (C5, C6) -/

/-- C5: a frame (other than a capability announcement) whose
`(action, message_id)` has no matching pending slot at check time is
logged and dropped — the session state is returned unchanged and no error
is surfaced; and a delivery attempt into a slot whose channel is already
closed panics inside `writeToMap`, is caught by its recover, and leaves
the read loop running with the state unchanged. -/
theorem readLoop_drop_and_closed (decode : String → Option (List String))
    (c : Clients) (fr : Frame) :
    ((fr.action == "_registerActions" && fr.message_id == "") = false →
      readFromMap c fr.action fr.message_id = none →
      processFrame decode c fr = some c) ∧
    (∀ ch : Chan,
      (fr.action == "_registerActions" && fr.message_id == "") = false →
      readFromMap c fr.action fr.message_id = some ch →
      ch.closed = true →
      processFrame decode c fr = some c) := by
  constructor
  · intro hc hn
    unfold processFrame
    rw [if_neg (by simp [hc]), hn]
  · intro ch hc hs hclosed
    unfold processFrame writeToMap chanSend
    rw [if_neg (by simp [hc]), hs]
    simp [hclosed]

/-- A session holding one already-closed slot at `("act", "mid")`. -/
def closedSlotClient : Clients :=
  { newClient "g1" "u1" "ip1" 0 with
    actionData := [("act", [("mid", { buf := [], closed := true })])] }

/-- A decoder that accepts nothing (the decode is irrelevant to C5). -/
def noDecode : String → Option (List String) := fun _ => none

/-- Witness for C5: a frame with an unknown id and a late frame hitting
the closed slot both leave the concrete session unchanged. -/
theorem readLoop_drop_and_closed_witness :
    processFrame noDecode closedSlotClient
      { action := "act", message_id := "zzz", response_data := "late" }
      = some closedSlotClient ∧
    processFrame noDecode closedSlotClient
      { action := "act", message_id := "mid", response_data := "late" }
      = some closedSlotClient :=
  ⟨(readLoop_drop_and_closed noDecode closedSlotClient
      { action := "act", message_id := "zzz", response_data := "late" }).1
      (by decide) (by decide),
   (readLoop_drop_and_closed noDecode closedSlotClient
      { action := "act", message_id := "mid", response_data := "late" }).2
      { buf := [], closed := true } (by decide) (by decide) rfl⟩

/-- C6: a frame with `action == "_registerActions"` and
`message_id == ""` replaces `registeredActions` with the decoded ordered
list (and leaves the session otherwise unchanged when the payload does not
decode); in all cases the pending table, `failCount` and `isHealthy` are
untouched. -/
theorem registerActions_frame (decode : String → Option (List String))
    (c : Clients) (msg : String) :
    (∀ acts, decode msg = some acts →
      processFrame decode c
        { action := "_registerActions", message_id := "",
          response_data := msg }
        = some { c with registeredActions := acts }) ∧
    (decode msg = none →
      processFrame decode c
        { action := "_registerActions", message_id := "",
          response_data := msg } = some c) ∧
    (∀ r : Clients,
      processFrame decode c
        { action := "_registerActions", message_id := "",
          response_data := msg } = some r →
      r.actionData = c.actionData ∧ r.failCount = c.failCount ∧
        r.isHealthy = c.isHealthy ∧ r.clientGroup = c.clientGroup) := by
  refine ⟨?_, ?_, ?_⟩
  · intro acts h
    unfold processFrame
    rw [if_pos (by rfl), h]
  · intro h
    unfold processFrame
    rw [if_pos (by rfl), h]
  · intro r hr
    unfold processFrame at hr
    rw [if_pos (by rfl)] at hr
    cases hd : decode msg with
    | none =>
        rw [hd] at hr
        have : c = r := by exact Option.some.inj hr
        rw [← this]
        exact ⟨rfl, rfl, rfl, rfl⟩
    | some acts =>
        rw [hd] at hr
        have : { c with registeredActions := acts } = r :=
          Option.some.inj hr
        rw [← this]
        exact ⟨rfl, rfl, rfl, rfl⟩

/-- A decoder recognizing one concrete capability payload. -/
def demoDecode : String → Option (List String) :=
  fun s => if s == "caps" then some ["dom", "cookie"] else none

/-- Witness for C6: the concrete announcement replaces the capability
list of the demonstration session. -/
theorem registerActions_frame_witness :
    processFrame demoDecode demoClient
      { action := "_registerActions", message_id := "",
        response_data := "caps" }
      = some { demoClient with registeredActions := ["dom", "cookie"] } :=
  (registerActions_frame demoDecode demoClient "caps").1 ["dom", "cookie"]
    (by decide)

/-! ## Handshake and teardown (C7) -/

/-- C7 (amended): for a non-empty group the `ws` handler's trace stores
the `(group,id)` registry entry first, then attempts the handshake
acknowledgement, and — whatever the read loop does — ends by closing the
socket and then deleting the entry, so the final registry no longer holds
the key; the entry is therefore added immediately before the
acknowledgement is sent (not after), and is removed whenever the socket
closes. -/
theorem wsHandler_registry_lifecycle (group clientId ip : String)
    (now : Int) (ackOk : Bool) (reg : Registry) :
    group ≠ "" →
    ((wsHandlerTrace group clientId ackOk).head? =
        some (WsEvent.storeEntry (group ++ "->" ++ clientId)) ∧
     (wsHandlerTrace group clientId ackOk).get? 1 =
        some (if ackOk then WsEvent.sendAckOk else WsEvent.sendAckFail) ∧
     (wsHandlerTrace group clientId ackOk).get? 2 =
        some WsEvent.closeSocket ∧
     (wsHandlerTrace group clientId ackOk).get? 3 =
        some (WsEvent.deleteEntry (group ++ "->" ++ clientId)) ∧
     (wsHandlerTrace group clientId ackOk).length = 4 ∧
     syncMapLoad
       (applyWsTrace (newClient group clientId ip now) reg
         (wsHandlerTrace group clientId ackOk))
       (group ++ "->" ++ clientId) = none) := by
  intro h
  unfold wsHandlerTrace
  rw [if_neg (by simp [h])]
  refine ⟨rfl, rfl, rfl, rfl, rfl, ?_⟩
  unfold applyWsTrace
  simp only [List.foldl]
  cases ackOk <;>
    simp only [applyWsEvent] <;>
    exact mapLookup_erase_self _ _

/-- Witness for C7 (amended): the concrete trace for group `g`, id `c`
with a successful acknowledgement stores first and ends with the entry
deleted. -/
theorem wsHandler_registry_lifecycle_witness :
    (wsHandlerTrace "g" "c" true).head? =
      some (WsEvent.storeEntry "g->c") ∧
    syncMapLoad
      (applyWsTrace (newClient "g" "c" "ip" 0) []
        (wsHandlerTrace "g" "c" true)) "g->c" = none := by
  have h := wsHandler_registry_lifecycle "g" "c" "ip" 0 true [] (by decide)
  exact ⟨h.1, h.2.2.2.2.2⟩

/-- C7 counterexample: the claim says the registry entry is added when the
session completes the handshake (the acknowledgement has been sent).  In
the execution where the acknowledgement write fails the handshake never
completes, yet the trace contains the store — the store precedes the
acknowledgement attempt unconditionally. -/
theorem ws_store_before_ack_cex :
    wsHandlerTrace "g" "c" false =
      [WsEvent.storeEntry "g->c", WsEvent.sendAckFail,
       WsEvent.closeSocket, WsEvent.deleteEntry "g->c"] ∧
    WsEvent.storeEntry "g->c" ∈ wsHandlerTrace "g" "c" false ∧
    WsEvent.sendAckOk ∉ wsHandlerTrace "g" "c" false :=
  ⟨by decide, by decide, by decide⟩

/-! ## Kick (C9) -/

theorem kickClient_notFound (reg : Registry) (group clientId : String)
    (hg : group ≠ "") (hc : clientId ≠ "")
    (hnone : syncMapLoad reg (group ++ "->" ++ clientId) = none) :
    kickClient reg group clientId = (reg, 404, "客户端不存在") := by
  unfold kickClient
  rw [if_neg (by simp [hg, hc]), hnone]

/-- C9: `kickClient` on a registered `(group, id)` responds 200 and closes
that session's socket; the read loop on a closed socket gets a read error
(terminates), and its deferred teardown removes the registry entry; a
second `kickClient` on the same id then responds 404 (NotFound) and leaves
the registry unchanged — kicking twice is safe. -/
theorem kick_teardown (reg : Registry) (group clientId : String)
    (cl : Clients) (fr : Option Frame) :
    group ≠ "" → clientId ≠ "" →
    syncMapLoad reg (group ++ "->" ++ clientId) = some cl →
    ((kickClient reg group clientId).2.1 = 200 ∧
     syncMapLoad (kickClient reg group clientId).1
       (group ++ "->" ++ clientId) = some { cl with socketClosed := true } ∧
     readMessageResult { cl with socketClosed := true } fr = none ∧
     syncMapLoad
       (wsTeardown (kickClient reg group clientId).1
         (group ++ "->" ++ clientId))
       (group ++ "->" ++ clientId) = none ∧
     (kickClient
       (wsTeardown (kickClient reg group clientId).1
         (group ++ "->" ++ clientId)) group clientId).2.1 = 404 ∧
     (kickClient
       (wsTeardown (kickClient reg group clientId).1
         (group ++ "->" ++ clientId)) group clientId).1 =
       wsTeardown (kickClient reg group clientId).1
         (group ++ "->" ++ clientId)) := by
  intro hg hc hload
  have hcond : ¬((group == "" || clientId == "") = true) := by
    simp [hg, hc]
  have hkick : kickClient reg group clientId =
      (syncMapStore reg (group ++ "->" ++ clientId)
        { cl with socketClosed := true }, 200, "客户端已踢除") := by
    unfold kickClient
    rw [if_neg hcond, hload]
  have h404 : syncMapLoad
      (wsTeardown (kickClient reg group clientId).1
        (group ++ "->" ++ clientId)) (group ++ "->" ++ clientId) = none :=
    mapLookup_erase_self _ _
  have h2 := kickClient_notFound
    (wsTeardown (kickClient reg group clientId).1 (group ++ "->" ++ clientId))
    group clientId hg hc h404
  refine ⟨by rw [hkick], ?_, rfl, h404, by rw [h2], by rw [h2]⟩
  rw [hkick]
  exact mapLookup_insert_self _ _ _

/-- Witness for C9: on the concrete registry the first kick of `g1`'s
session `u1` responds 200 and, after the read loop's teardown, the second
kick responds 404 without changing the registry. -/
theorem kick_teardown_witness :
    (kickClient demoReg "g1" "u1").2.1 = 200 ∧
    (kickClient (wsTeardown (kickClient demoReg "g1" "u1").1 "g1->u1")
      "g1" "u1").2.1 = 404 ∧
    (kickClient (wsTeardown (kickClient demoReg "g1" "u1").1 "g1->u1")
      "g1" "u1").1 =
      wsTeardown (kickClient demoReg "g1" "u1").1 "g1->u1" := by
  have h := kick_teardown demoReg "g1" "u1" demoClient none (by decide)
    (by decide) (by decide)
  exact ⟨h.1, h.2.2.2.2.1, h.2.2.2.2.2⟩

/-! ## Correlation-id TOCTOU trace (C3) -/

/-- Initial state: no slot held, two concurrent `GQueryFunc` calls about
to generate ids for the same `(session, action)`. -/
def idSt0 : IdGenState := { pending := [], threads := [TStatus.idle, TStatus.idle] }

/-- Thread 0 has drawn uuid `"u"` and passed the `readFromMap == nil`
check (RLock released, insert not yet done). -/
def idSt1 : IdGenState :=
  { pending := [], threads := [TStatus.ready "u", TStatus.idle] }

/-- Thread 1 draws the same uuid `"u"` and also passes the check — the
slot table still has no `"u"`. -/
def idSt2 : IdGenState :=
  { pending := [], threads := [TStatus.ready "u", TStatus.ready "u"] }

/-- Thread 0 performs the locked insert and proceeds with id `"u"`. -/
def idSt3 : IdGenState :=
  { pending := ["u"], threads := [TStatus.outstanding "u", TStatus.ready "u"] }

/-- Thread 1 performs its locked insert of the same key (a Go map write
that overwrites thread 0's channel) and proceeds with the same id. -/
def idSt4 : IdGenState :=
  { pending := ["u"],
    threads := [TStatus.outstanding "u", TStatus.outstanding "u"] }

/-- C3 (failing trace): the check (`readFromMap`, lines 37–38) and the
insert (lines 39–42) of the id-generation loop are separate lock regions,
so two concurrent `GQueryFunc` calls that draw the same uuid can both pass
the absent check before either inserts; the interleaving below is a valid
step sequence of the embedded semantics and ends with both calls
outstanding under the same correlation id `"u"` — the claim's uniqueness
contract is violated (the second insert also overwrote the first slot). -/
theorem idgen_duplicate_assignment_trace :
    IdStep idSt0 idSt1 ∧ IdStep idSt1 idSt2 ∧ IdStep idSt2 idSt3 ∧
    IdStep idSt3 idSt4 ∧
    idSt4.threads.get? 0 = some (TStatus.outstanding "u") ∧
    idSt4.threads.get? 1 = some (TStatus.outstanding "u") ∧
    idSt4.pending = ["u"] := by
  refine ⟨?_, ?_, ?_, ?_, rfl, rfl, rfl⟩
  · exact IdStep.checkAbsent idSt0 0 "u" rfl (by decide)
  · exact IdStep.checkAbsent idSt1 1 "u" rfl (by decide)
  · exact IdStep.insertSlot idSt2 0 "u" rfl
  · exact IdStep.insertSlot idSt3 1 "u" rfl

end JsRpc
